import Mathlib

/-!
Verification development for the CAD-Generator repository: four browser-based
gasket generators (ellipse, flange, firetube/obround, jumper) that parse
dimension strings, validate geometry, and serialize DXF R12 drawings.

The JavaScript sources are embedded shallowly:
  * dimension strings are parsed over `ℚ` (JS doubles modelled exactly;
    `NaN`/`Infinity` are modelled as `Option.none` at the points where the
    source immediately filters them with `Number.isFinite`),
  * geometry and validation run over `ℝ` (trigonometry and π are exact),
  * DXF output is modelled as the list of its ASCII lines, with the JS
    number-to-string conversion `String(x)` kept abstract as a parameter.
-/

open scoped Classical

namespace CadGen

/-! ## JS string/number primitives shared by the generators

`ellipse.js` (src/unnamed/part_000), `flange.js` (part_001) and `jumper.js`
(part_002) contain three identical copies of `parseInches`; it is embedded
once below.  The model of `Number(string)` covers the decimal and scientific
literal grammar (with optional sign and surrounding whitespace, and the empty
or all-whitespace string converting to 0); other literal forms (hex etc.) do
not occur in the repository's inputs and are mapped to the non-finite result.
-/

/-- Whitespace characters recognised by the model of JS `trim` and `\s`. -/
def isWsB (c : Char) : Bool :=
  c = ' ' || c = '\t' || c = '\n' || c = '\r'

/-- Model of `String.prototype.trim` on a character list. -/
def trimList (l : List Char) : List Char :=
  ((l.dropWhile isWsB).reverse.dropWhile isWsB).reverse

/-- Value of a string of decimal digits, as read by `parseInt(·, 10)`. -/
def digitsToNat (l : List Char) : ℕ :=
  l.foldl (fun a c => 10 * a + (c.toNat - '0'.toNat)) 0

/-- Exponent suffix of a JS numeric literal: empty, or `e`/`E` followed by an
optionally signed digit string; anything else makes the literal `NaN`. -/
def parseExp (l : List Char) : Option ℤ :=
  if l.isEmpty then some 0
  else if l.head? = some 'e' ∨ l.head? = some 'E' then
    let r := l.tail
    if r.head? = some '+' then
      if r.tail ≠ [] ∧ r.tail.all Char.isDigit then some (digitsToNat r.tail) else none
    else if r.head? = some '-' then
      if r.tail ≠ [] ∧ r.tail.all Char.isDigit then some (-(digitsToNat r.tail : ℤ)) else none
    else
      if r ≠ [] ∧ r.all Char.isDigit then some (digitsToNat r) else none
  else none

/-- Unsigned part of a JS numeric literal: `digits [. digits] [exponent]`,
with at least one digit; `Infinity` is non-finite, hence `none`. -/
def jsUnsigned (l : List Char) : Option ℚ :=
  if l = "Infinity".data then none
  else if (l.dropWhile Char.isDigit).head? = some '.' then
    if (l.takeWhile Char.isDigit).isEmpty
        ∧ ((l.dropWhile Char.isDigit).tail.takeWhile Char.isDigit).isEmpty then none
    else (parseExp ((l.dropWhile Char.isDigit).tail.dropWhile Char.isDigit)).map fun e =>
      ((digitsToNat (l.takeWhile Char.isDigit) : ℚ) +
        (digitsToNat ((l.dropWhile Char.isDigit).tail.takeWhile Char.isDigit) : ℚ) /
          10 ^ ((l.dropWhile Char.isDigit).tail.takeWhile Char.isDigit).length) * (10 : ℚ) ^ e
  else if (l.takeWhile Char.isDigit).isEmpty then none
  else (parseExp (l.dropWhile Char.isDigit)).map fun e =>
    (digitsToNat (l.takeWhile Char.isDigit) : ℚ) * (10 : ℚ) ^ e

/-- Signed JS numeric literal. -/
def jsNumLit (l : List Char) : Option ℚ :=
  if l.head? = some '+' then jsUnsigned l.tail
  else if l.head? = some '-' then (jsUnsigned l.tail).map Neg.neg
  else jsUnsigned l

/-- Model of JS `Number(string)`: surrounding whitespace is ignored, the empty
(or all-whitespace) string converts to `0`, and `none` stands for a non-finite
result (`NaN` or `±Infinity`), which every call site in the sources rejects
immediately via `Number.isFinite`. -/
def jsNumberL (l : List Char) : Option ℚ :=
  if (trimList l).isEmpty then some 0 else jsNumLit (trimList l)

/-- Model of JS `String.prototype.split` with a one-character separator. -/
def splitChar (sep : Char) : List Char → List (List Char)
  | [] => [[]]
  | c :: rest =>
    let r := splitChar sep rest
    if c = sep then [] :: r
    else
      match r with
      | [] => [[c]]
      | h :: t => (c :: h) :: t

/-- Worker for the whitespace-collapsing replace call: the flag records
whether the previous character belonged to a whitespace run. -/
def collapseWsAux : Bool → List Char → List Char
  | _, [] => []
  | prevWs, c :: rest =>
    if isWsB c then
      if prevWs then collapseWsAux true rest
      else ' ' :: collapseWsAux true rest
    else c :: collapseWsAux false rest

/-- Model of `replace(/\s+/g, " ")`: every maximal whitespace run becomes one
space. -/
def collapseWs (l : List Char) : List Char :=
  collapseWsAux false l

/-- Model of the JS replace call that rewrites every hyphen into a space. -/
def replaceDash (l : List Char) : List Char :=
  l.map fun c => if c = '-' then ' ' else c

/-- The mixed-fraction combination step of the shared parser: return `NaN`
when any of `whole`, `n`, `d` is non-finite or `d` is zero, else `whole+n/d`. -/
def mixedCombine (whole n d : Option ℚ) : Option ℚ :=
  match whole, n, d with
  | some w, some nv, some dv => if dv = 0 then none else some (w + nv / dv)
  | _, _, _ => none

/-- The simple-fraction combination step of the shared parser: return `NaN`
when `n` or `d` is non-finite or `d` is zero, else `n/d`. -/
def fracCombine (n d : Option ℚ) : Option ℚ :=
  match n, d with
  | some nv, some dv => if dv = 0 then none else some (nv / dv)
  | _, _ => none

/-- `parseInches` as written identically in `ellipse.js`, `flange.js` and
`jumper.js`: trim; turn every hyphen into a space; collapse whitespace; then
try `"a b/c"`, `"b/c"`, or a plain `Number(...)`.  `NaN` results are `none`. -/
def parseInches (str : String) : Option ℚ :=
  let s0 := trimList str.data
  if s0.isEmpty then none
  else
    let s1 := collapseWs (replaceDash s0)
    let parts := splitChar ' ' s1
    if parts.length = 2 ∧ '/' ∈ parts.getD 1 [] then
      let comps := splitChar '/' (parts.getD 1 [])
      mixedCombine (jsNumberL (parts.getD 0 [])) (jsNumberL (comps.getD 0 []))
        (jsNumberL (comps.getD 1 []))
    else if parts.length = 1 ∧ '/' ∈ s1 then
      let comps := splitChar '/' s1
      fracCombine (jsNumberL (comps.getD 0 [])) (jsNumberL (comps.getD 1 []))
    else jsNumberL s1

end CadGen

namespace Firetube

open CadGen

/-- Matcher for the firetube regex `^(\d+)\s+(\d+)\s*\/\s*(\d+)$`
(`firetube.js`, the `"1 1/2"` mixed-fraction branch of its `parseInches`). -/
def matchMixed (l : List Char) : Option (ℕ × ℕ × ℕ) :=
  let d1 := l.takeWhile Char.isDigit
  let r1 := l.dropWhile Char.isDigit
  if d1.isEmpty then none
  else
    let w1 := r1.takeWhile isWsB
    let r2 := r1.dropWhile isWsB
    if w1.isEmpty then none
    else
      let d2 := r2.takeWhile Char.isDigit
      let r3 := r2.dropWhile Char.isDigit
      if d2.isEmpty then none
      else
        let r4 := r3.dropWhile isWsB
        if r4.head? = some '/' then
          let r5 := r4.tail.dropWhile isWsB
          let d3 := r5.takeWhile Char.isDigit
          if d3.isEmpty then none
          else if (r5.dropWhile Char.isDigit).isEmpty then
            some (digitsToNat d1, digitsToNat d2, digitsToNat d3)
          else none
        else none

/-- Matcher for the firetube regex `^(\d+)\s*\/\s*(\d+)$` (the `"3/4"`
simple-fraction branch). -/
def matchFrac (l : List Char) : Option (ℕ × ℕ) :=
  let d1 := l.takeWhile Char.isDigit
  let r1 := (l.dropWhile Char.isDigit).dropWhile isWsB
  if d1.isEmpty then none
  else if r1.head? = some '/' then
    let r2 := r1.tail.dropWhile isWsB
    let d2 := r2.takeWhile Char.isDigit
    if d2.isEmpty then none
    else if (r2.dropWhile Char.isDigit).isEmpty then
      some (digitsToNat d1, digitsToNat d2)
    else none
  else none

/-- `parseInches` of `firetube.js` (lines 56-82): unlike the shared parser it
throws on every malformed input, modelled with `Except`. -/
def parseInches (str : String) : Except String ℚ :=
  let raw := trimList str.data
  if raw.isEmpty then .error "Empty value"
  else
    let rawS : String := ⟨raw⟩
    match matchMixed raw with
    | some (w, n, d) =>
      if d = 0 then .error ("Invalid fraction \"" ++ rawS ++ "\"")
      else .ok ((w : ℚ) + (n : ℚ) / (d : ℚ))
    | none =>
      match matchFrac raw with
      | some (n, d) =>
        if d = 0 then .error ("Invalid fraction \"" ++ rawS ++ "\"")
        else .ok ((n : ℚ) / (d : ℚ))
      | none =>
        match jsNumberL raw with
        | none => .error ("Invalid number \"" ++ rawS ++ "\"")
        | some v => .ok v

end Firetube

namespace CadGen

/-! ## JS arithmetic on reals -/

/-- JS truncation toward zero, as performed by the `%` operator. -/
noncomputable def jsTrunc (x : ℝ) : ℤ :=
  if x < 0 then -⌊-x⌋ else ⌊x⌋

/-- JS remainder `a % b` (truncated remainder, sign of the dividend).  The
sources only apply it with a positive modulus, where it is total; `b = 0`
(JS `NaN`) is unreachable there. -/
noncomputable def jsMod (a b : ℝ) : ℝ :=
  a - b * jsTrunc (a / b)

end CadGen

namespace Firetube

/-! ## Firetube geometry and validation (`firetube.js`) -/

/-- `obroundPerimeter` (firetube.js lines 149-153). -/
noncomputable def obroundPerimeter (L W : ℝ) : ℝ :=
  2 * (L - W) + 2 * Real.pi * (W / 2)

/-- `perimeterPointObround` (firetube.js lines 155-195): map an arc-length
distance along the bolt-circle obround to a boundary point, walking the five
regions right quarter-arc, top straight, left semicircle, bottom straight,
and closing right quarter-arc. -/
noncomputable def perimeterPointObround (L W dist : ℝ) : ℝ × ℝ :=
  let r := W / 2
  let straight := L - W
  let cx := straight / 2
  let quarterArcLen := Real.pi * r / 2
  let leftSemiLen := Real.pi * r
  let total := 2 * straight + 2 * Real.pi * r
  let d0 := CadGen.jsMod (CadGen.jsMod dist total + total) total
  if d0 ≤ quarterArcLen then
    let t := d0 / quarterArcLen
    let ang := (0 + 90 * t) * Real.pi / 180
    (cx + r * Real.cos ang, r * Real.sin ang)
  else
    let d1 := d0 - quarterArcLen
    if d1 ≤ straight then
      let t := d1 / straight
      (cx + -(2 * cx) * t, r)
    else
      let d2 := d1 - straight
      if d2 ≤ leftSemiLen then
        let t := d2 / leftSemiLen
        let ang := (90 + 180 * t) * Real.pi / 180
        (-cx + r * Real.cos ang, r * Real.sin ang)
      else
        let d3 := d2 - leftSemiLen
        if d3 ≤ straight then
          let t := d3 / straight
          (-cx + 2 * cx * t, -r)
        else
          let d4 := d3 - straight
          let t := d4 / quarterArcLen
          let ang := (270 + 90 * t) * Real.pi / 180
          (cx + r * Real.cos ang, r * Real.sin ang)

/-- The validated firetube parameter bundle returned by `computeInputs`. -/
structure Inputs where
  odLong : ℝ
  odShort : ℝ
  idLong : ℝ
  idShort : ℝ
  bcLong : ℝ
  bcShort : ℝ
  holeCount : ℤ
  holeDia : ℝ
  centerMode : String

/-- `computeInputs` (firetube.js lines 273-311), from the already-parsed
numeric field values on: the sequence of constraint checks, each of which
throws (modelled as `Except.error`) immediately when violated, and the final
hole-overlap check against the bolt-circle perimeter. -/
noncomputable def computeInputs (odLong odShort idLong idShort bcLong bcShort : ℝ)
    (holeCount : ℤ) (holeDia : ℝ) (centerMode : String) : Except String Inputs :=
  if odLong < odShort then
    .error "Long Side OD must be the same as or larger than Short Side OD."
  else if idLong < idShort then
    .error "Long Side ID must be the same as or larger than Short Side ID."
  else if bcLong < bcShort then
    .error "Long Side BC must be the same as or larger than Short Side BC."
  else if idLong ≥ odLong ∨ idShort ≥ odShort then
    .error "ID must be smaller than OD."
  else if bcLong > odLong ∨ bcShort > odShort then
    .error "BC must fit inside OD."
  else if ¬ holeCount > 0 then
    .error "Hole count must be greater than zero."
  else if ¬ holeDia > 0 then
    .error "Hole diameter must be greater than zero."
  else if obroundPerimeter bcLong bcShort / (holeCount : ℝ) ≤ holeDia then
    .error "Bolt holes overlap: Bolt Hole Center To Center is not large enough for the hole diameter."
  else
    .ok ⟨odLong, odShort, idLong, idShort, bcLong, bcShort, holeCount, holeDia, centerMode⟩

/-- `computeHoleCenters` (firetube.js lines 248-260): place `holeCount` holes
along the bolt-circle obround at arc lengths `i*c2c + shift`. -/
noncomputable def computeHoleCenters (i : Inputs) : List (ℝ × ℝ) × ℝ :=
  let c2c := obroundPerimeter i.bcLong i.bcShort / (i.holeCount : ℝ)
  let shift := if i.centerMode = "off" then c2c / 2 else 0
  ((List.range i.holeCount.toNat).map fun (k : ℕ) =>
      perimeterPointObround i.bcLong i.bcShort ((k : ℝ) * c2c + shift), c2c)

/-- The arc-length parameters at which `computeHoleCenters` samples the
bolt-circle boundary. -/
noncomputable def holeArcLengths (i : Inputs) : List ℝ :=
  let c2c := obroundPerimeter i.bcLong i.bcShort / (i.holeCount : ℝ)
  let shift := if i.centerMode = "off" then c2c / 2 else 0
  (List.range i.holeCount.toNat).map fun (k : ℕ) => (k : ℝ) * c2c + shift

/-- The validate-then-place pipeline of `runValidation` (firetube.js lines
451-453): hole centers exist only when `computeInputs` succeeds. -/
noncomputable def validateThenPlace (odLong odShort idLong idShort bcLong bcShort : ℝ)
    (holeCount : ℤ) (holeDia : ℝ) (centerMode : String) : Except String (List (ℝ × ℝ)) :=
  (computeInputs odLong odShort idLong idShort bcLong bcShort holeCount holeDia centerMode).map
    fun i => (computeHoleCenters i).1

end Firetube

namespace Flange

/-! ## Flange geometry, validation and DXF serialization (`flange.js`)

The embedding covers the circle-cutout branch (`cutoutType === "circle"`),
which is the branch every claim about this generator exercises; the square
branch repeats the same structure with the rounded-rect cutout gap. -/

/-- `clampRadius` (flange.js lines 148-153). -/
noncomputable def clampRadius (r w h : ℝ) : ℝ :=
  if r ≤ 0 then 0 else max 0 (min r (min (w / 2) (h / 2)))

/-- `sdfRoundedRect` (flange.js lines 107-122): signed distance from a point
to the boundary of the rounded rectangle centered at the origin with
half-sizes `hw`, `hh` and corner radius `rr`; negative inside. -/
noncomputable def sdfRoundedRect (px py hw hh rr : ℝ) : ℝ :=
  Real.sqrt (max (|px| - (hw - rr)) 0 ^ 2 + max (|py| - (hh - rr)) 0 ^ 2)
    + min (max (|px| - (hw - rr)) (|py| - (hh - rr))) 0 - rr

/-- `gapCircleToRoundedOD` (flange.js lines 126-134). -/
noncomputable def gapCircleToRoundedOD (x y r odX odY odR : ℝ) : ℝ :=
  -sdfRoundedRect x y (odX / 2) (odY / 2) (clampRadius odR odX odY) - r

/-- One sampled corner arc of `roundedRectPoints` (flange.js lines 215-219). -/
noncomputable def cornerArc (cx cy rr a b : ℝ) (segs : ℕ) : List (ℝ × ℝ) :=
  (List.range (segs + 1)).map fun (i : ℕ) =>
    (cx + rr * Real.cos (a + ((i : ℝ) / (segs : ℝ)) * (b - a)),
     cy + rr * Real.sin (a + ((i : ℝ) / (segs : ℝ)) * (b - a)))

/-- `roundedRectPoints` (flange.js lines 199-229): a sharp 4-corner rectangle
when the clamped radius is 0, otherwise the four corner arcs in the fixed
order top-right, bottom-right, bottom-left, top-left of the source's frame. -/
noncomputable def roundedRectPoints (w h r : ℝ) (segs : ℕ) : List (ℝ × ℝ) :=
  let hw := w / 2
  let hh := h / 2
  let rr := clampRadius r w h
  if rr = 0 then [(-hw, -hh), (hw, -hh), (hw, hh), (-hw, hh)]
  else
    cornerArc (hw - rr) (-hh + rr) rr (-(Real.pi / 2)) 0 segs
      ++ cornerArc (hw - rr) (hh - rr) rr 0 (Real.pi / 2) segs
      ++ cornerArc (-hw + rr) (hh - rr) rr (Real.pi / 2) Real.pi segs
      ++ cornerArc (-hw + rr) (-hh + rr) rr Real.pi (3 * Real.pi / 2) segs

/-- The four bolt-hole centers `[-hx,-hy], [hx,-hy], [-hx,hy], [hx,hy]`. -/
noncomputable def holePts (hx hy : ℝ) : List (ℝ × ℝ) :=
  [(-hx, -hy), (hx, -hy), (-hx, hy), (hx, hy)]

/-- First validation phase of `validateAndPreview` (flange.js lines 357-384,
circle branch): the basic numeric errors, accumulated in push order.
`cornerR = none` models a blank corner-radius field (which the source
defaults to 0). -/
noncomputable def basicErrsCircle (odX odY : ℝ) (cornerR : Option ℝ)
    (bhCCX bhCCY bhDia cutoutDia : ℝ) : List String :=
  (if odX ≤ 0 then ["OD X must be a positive number."] else [])
    ++ (if odY ≤ 0 then ["OD Y must be a positive number."] else [])
    ++ (match cornerR with
        | some r => if r < 0 then ["Corner Radius must be blank or a non-negative number."] else []
        | none => [])
    ++ (if clampRadius (cornerR.getD 0) odX odY ≠ cornerR.getD 0 then
          ["Corner Radius is too large for the OD."] else [])
    ++ (if bhCCX ≤ 0 then ["Bolt Hole Center To Center X must be a positive number."] else [])
    ++ (if bhCCY ≤ 0 then ["Bolt Hole Center To Center Y must be a positive number."] else [])
    ++ (if bhDia ≤ 0 then ["Bolt Hole Diameter must be a positive number."] else [])
    ++ (if cutoutDia ≤ 0 then ["Center Cutout Diameter must be a positive number."] else [])

/-- Second validation phase of `validateAndPreview` (flange.js lines 394-452,
circle branch): the clearance errors, accumulated in push order.  The minima
mirror the source's `Math.min` folds over the four bolt-hole centers. -/
noncomputable def clearErrsCircle (odX odY r0 bhCCX bhCCY bhDia cutoutDia : ℝ) : List String :=
  let holeR := bhDia / 2
  let hx := bhCCX / 2
  let hy := bhCCY / 2
  let g : ℝ × ℝ → ℝ := fun p => gapCircleToRoundedOD p.1 p.2 holeR odX odY r0
  let minHoleODGap := min (min (min (g (-hx, -hy)) (g (hx, -hy))) (g (-hx, hy))) (g (hx, hy))
  let cr := cutoutDia / 2
  let gg : ℝ × ℝ → ℝ := fun p => Real.sqrt (p.1 ^ 2 + p.2 ^ 2) - (holeR + cr)
  let minHoleIDGap := min (min (min (gg (-hx, -hy)) (gg (hx, -hy))) (gg (-hx, hy))) (gg (hx, hy))
  (if minHoleODGap ≤ 0 then ["Bolt holes are touching or outside the OD."] else [])
    ++ (if bhCCX ≤ bhDia then ["Bolt holes are touching/overlapping each other on X spacing."] else [])
    ++ (if bhCCY ≤ bhDia then ["Bolt holes are touching/overlapping each other on Y spacing."] else [])
    ++ (if gapCircleToRoundedOD 0 0 cr odX odY r0 ≤ 0 then
          ["Center cutout is touching or outside the OD."] else [])
    ++ (if minHoleIDGap ≤ 0 then ["Bolt holes are touching/overlapping the center cutout."] else [])

/-- The `lastValid` bundle stored by a successful flange validation
(circle-cutout branch). -/
structure Spec where
  odX : ℝ
  odY : ℝ
  cornerR : ℝ
  bhCCX : ℝ
  bhCCY : ℝ
  bhDia : ℝ
  cutoutDia : ℝ

/-- `validateAndPreview` (flange.js lines 341-487, circle branch) as a pure
validator: fail with the accumulated list of phase-1 errors if any, else with
the accumulated list of phase-2 clearance errors if any, else succeed. -/
noncomputable def validateCircle (odX odY : ℝ) (cornerR : Option ℝ)
    (bhCCX bhCCY bhDia cutoutDia : ℝ) : Except (List String) Spec :=
  let e1 := basicErrsCircle odX odY cornerR bhCCX bhCCY bhDia cutoutDia
  if e1 ≠ [] then .error e1
  else
    let e2 := clearErrsCircle odX odY (cornerR.getD 0) bhCCX bhCCY bhDia cutoutDia
    if e2 ≠ [] then .error e2
    else .ok ⟨odX, odY, cornerR.getD 0, bhCCX, bhCCY, bhDia, cutoutDia⟩

/-! ### DXF R12 output of the ellipse/flange/jumper generators

These three sources contain identical `dxfHeader`, `dxfFooter`, `dxfCircle`
and `dxfPolyline` functions; they are embedded once here, as the lists of
emitted lines.  `ts` abstracts the JS number-to-string conversion
`String(x)`. -/

/-- `dxfHeader` (flange.js lines 156-170), split at the newlines it joins. -/
def dxfHeaderLines : List String :=
  ["0", "SECTION", "2", "HEADER",
   "9", "$ACADVER", "1", "AC1009",
   "9", "$INSUNITS", "70", "1",
   "0", "ENDSEC",
   "0", "SECTION", "2", "TABLES",
   "0", "TABLE", "2", "LAYER", "70", "2",
   "0", "LAYER", "2", "Perimeter", "70", "0", "62", "7", "6", "CONTINUOUS",
   "0", "LAYER", "2", "Holes", "70", "0", "62", "7", "6", "CONTINUOUS",
   "0", "ENDTAB",
   "0", "ENDSEC",
   "0", "SECTION", "2", "ENTITIES"]

/-- `dxfFooter`. -/
def dxfFooterLines : List String :=
  ["0", "ENDSEC", "0", "EOF"]

/-- `dxfCircle`: the circle entity's group-code/value lines. -/
def dxfCircleLines (ts : ℝ → String) (x y r : ℝ) (layer : String) : List String :=
  ["0", "CIRCLE", "8", layer, "10", ts x, "20", ts y, "30", "0", "40", ts r]

/-- `dxfPolyline`: header, one VERTEX chunk per point pushed in a loop,
then SEQEND. -/
def dxfPolylineLines (ts : ℝ → String) (points : List (ℝ × ℝ)) (layer : String)
    (closed : Bool) : List String :=
  (points.foldl
      (fun out p => out ++ ["0", "VERTEX", "8", layer, "10", ts p.1, "20", ts p.2, "30", "0"])
      ["0", "POLYLINE", "8", layer, "66", "1", "70", if closed then "1" else "0",
       "10", "0", "20", "0", "30", "0"])
    ++ ["0", "SEQEND"]

/-- DXF entities at the structural level: a closed polyline or a circle,
each tagged with its layer. -/
inductive Ent
  | poly (layer : String) (pts : List (ℝ × ℝ))
  | circle (layer : String) (cx cy r : ℝ)

/-- The lines a single entity serializes to. -/
def entLines (ts : ℝ → String) : Ent → List String
  | .poly layer pts => dxfPolylineLines ts pts layer true
  | .circle layer cx cy r => dxfCircleLines ts cx cy r layer

/-- The entities `downloadDXF` (flange.js lines 490-539, circle branch) emits,
in emission order: the OD perimeter polyline, the four bolt-hole circles, and
the center-cutout circle. -/
noncomputable def entsCircle (v : Spec) : List Ent :=
  Ent.poly "Perimeter" (roundedRectPoints v.odX v.odY v.cornerR 24)
    :: ((holePts (v.bhCCX / 2) (v.bhCCY / 2)).map fun p =>
          Ent.circle "Holes" p.1 p.2 (v.bhDia / 2))
    ++ [Ent.circle "Holes" 0 0 (v.cutoutDia / 2)]

/-- The full line list `downloadDXF` produces (circle branch). -/
noncomputable def downloadDXFLines (ts : ℝ → String) (v : Spec) : List String :=
  dxfHeaderLines
    ++ dxfPolylineLines ts (roundedRectPoints v.odX v.odY v.cornerR 24) "Perimeter" true
    ++ ((holePts (v.bhCCX / 2) (v.bhCCY / 2)).flatMap fun p =>
          dxfCircleLines ts p.1 p.2 (v.bhDia / 2) "Holes")
    ++ dxfCircleLines ts 0 0 (v.cutoutDia / 2) "Holes"
    ++ dxfFooterLines

/-- Count of POLYLINE entities on a layer. -/
def polyCountOn (layer : String) (es : List Ent) : ℕ :=
  (es.filter fun e =>
    match e with
    | .poly l _ => l == layer
    | _ => false).length

/-- Count of CIRCLE entities on a layer. -/
def circleCountOn (layer : String) (es : List Ent) : ℕ :=
  (es.filter fun e =>
    match e with
    | .circle l _ _ _ => l == layer
    | _ => false).length

end Flange

namespace Firetube

/-! ## Firetube DXF serialization (`firetube.js`) -/

/-- The numeric core of `fmt` (firetube.js line 84):
`Math.round(n * 1000000) / 1000000`, i.e. rounding to six decimal places
(JS `Math.round` is floor of `x + 1/2`). -/
noncomputable def jsRound6 (x : ℝ) : ℝ :=
  (⌊x * 1000000 + 1 / 2⌋ : ℝ) / 1000000

/-- `addLayerDef` (firetube.js lines 115-117). -/
def addLayerDefLines (name : String) : List String :=
  ["0", "LAYER", "2", name, "70", "0", "62", "7", "6", "CONTINUOUS"]

/-- `addLine` (firetube.js lines 118-120): every coordinate goes through
`fmt`, i.e. through `jsRound6` before the string conversion `ts`. -/
noncomputable def addLineLines (ts : ℝ → String) (layer : String) (x1 y1 x2 y2 : ℝ) :
    List String :=
  ["0", "LINE", "8", layer, "10", ts (jsRound6 x1), "20", ts (jsRound6 y1), "30", "0",
   "11", ts (jsRound6 x2), "21", ts (jsRound6 y2), "31", "0"]

/-- `addArc` (firetube.js lines 121-123). -/
noncomputable def addArcLines (ts : ℝ → String) (layer : String) (cx cy r a1 a2 : ℝ) :
    List String :=
  ["0", "ARC", "8", layer, "10", ts (jsRound6 cx), "20", ts (jsRound6 cy), "30", "0",
   "40", ts (jsRound6 r), "50", ts (jsRound6 a1), "51", ts (jsRound6 a2)]

/-- `addCircle` (firetube.js lines 124-126). -/
noncomputable def addCircleLines (ts : ℝ → String) (layer : String) (cx cy r : ℝ) :
    List String :=
  ["0", "CIRCLE", "8", layer, "10", ts (jsRound6 cx), "20", ts (jsRound6 cy), "30", "0",
   "40", ts (jsRound6 r)]

/-- `addObroundOutline` (firetube.js lines 131-144): throws when the long
dimension is below the short one, else two LINE and two ARC records. -/
noncomputable def addObroundOutlineLines (ts : ℝ → String) (layer : String)
    (longDim shortDim offsetX offsetY : ℝ) : Except String (List String) :=
  if longDim < shortDim then
    .error ("Long (" ++ ts longDim ++ ") must be ≥ Short (" ++ ts shortDim ++ ").")
  else
    let r := shortDim / 2
    let cx := (longDim - shortDim) / 2
    .ok (addLineLines ts layer (offsetX - cx) (offsetY + r) (offsetX + cx) (offsetY + r)
      ++ addLineLines ts layer (offsetX + cx) (offsetY - r) (offsetX - cx) (offsetY - r)
      ++ addArcLines ts layer (offsetX + cx) offsetY r 270 90
      ++ addArcLines ts layer (offsetX - cx) offsetY r 90 270)

/-- `buildDXF` (firetube.js lines 352-379) as its list of output lines.  The
source pushes the six-element `TABLE` header line group twice and then calls
`dxf.pop()` (with a comment claiming a noop), which removes only the final
`"2"`; the `dropLast` below mirrors that `pop`. -/
noncomputable def buildDXFLines (ts : ℝ → String) (i : Inputs) (centers : List (ℝ × ℝ)) :
    Except String (List String) :=
  let l1 := ["0", "SECTION", "2", "HEADER"]
    ++ ["9", "$INSUNITS", "70", "1"]
    ++ ["0", "ENDSEC"]
    ++ ["0", "SECTION", "2", "TABLES"]
    ++ ["0", "TABLE", "2", "LAYER", "70", "2"]
    ++ ["0", "TABLE", "2", "LAYER", "70", "2"]
  let l2 := l1.dropLast
  let l3 := l2 ++ ["0", "TABLE", "2", "LAYER", "70", "2"]
    ++ addLayerDefLines "Perimeter" ++ addLayerDefLines "Holes"
    ++ ["0", "ENDTAB"] ++ ["0", "ENDSEC"]
    ++ ["0", "SECTION", "2", "ENTITIES"]
  match addObroundOutlineLines ts "Perimeter" i.odLong i.odShort 0 0 with
  | .error m => .error m
  | .ok odLines =>
    match addObroundOutlineLines ts "Holes" i.idLong i.idShort 0 0 with
    | .error m => .error m
    | .ok idLines =>
      .ok (l3 ++ odLines ++ idLines
        ++ (centers.flatMap fun p => addCircleLines ts "Holes" p.1 p.2 (i.holeDia / 2))
        ++ ["0", "ENDSEC", "0", "EOF"])

end Firetube

namespace CadGen

/-- A DXF group-code line: a non-empty string of digits (after trimming),
as the R12 grammar demands on every even output line. -/
def isNumCode (s : String) : Bool :=
  !(trimList s.data).isEmpty && (trimList s.data).all Char.isDigit

/-- Whether every even-indexed line of a DXF output is a numeric group code,
i.e. whether the fixed group-code-line/value-line alternation holds. -/
def evenLinesNumeric (lines : List String) : Bool :=
  (List.range lines.length).all fun j => decide (j % 2 = 1) || isNumCode (lines.getD j "")

end CadGen

namespace Jumper

/-! ## Jumper tangent-arc outline builder (`jumper.js`) -/

/-- `angleOf` (jumper.js lines 130-132): `Math.atan2(py - cy, px - cx)`,
modelled with the principal argument (both have range `(-π, π]`). -/
noncomputable def angleOf (cx cy px py : ℝ) : ℝ :=
  Complex.arg ⟨px - cx, py - cy⟩

/-- The default `maxSegLen = 0.06` of `arcPoints`, the only value the source
ever uses. -/
noncomputable def jsMaxSegLen : ℝ := 3 / 50

/-- Closed form of the loop `while (end <= start) end += 2π` in `arcPoints`:
the smallest `end + 2πk (k : ℕ)` strictly above `start` (the loop is total
for the positive increment `2π`). -/
noncomputable def ccwEnd (s e : ℝ) : ℝ :=
  if e ≤ s then e + 2 * Real.pi * ((⌊(s - e) / (2 * Real.pi)⌋₊ + 1 : ℕ) : ℝ) else e

/-- Closed form of the loop `while (end >= start) end -= 2π` in `arcPoints`. -/
noncomputable def cwEnd (s e : ℝ) : ℝ :=
  if s ≤ e then e - 2 * Real.pi * ((⌊(e - s) / (2 * Real.pi)⌋₊ + 1 : ℕ) : ℝ) else e

/-- `arcPoints` (jumper.js lines 134-161): sample an arc from angle `a0`
towards `a1` in the requested direction, with `max 10 ⌈sweep·r/0.06⌉`
segments. -/
noncomputable def arcPoints (cx cy r a0 a1 : ℝ) (ccw : Bool) : List (ℝ × ℝ) :=
  if ccw then
    let e := ccwEnd a0 a1
    let sweep := e - a0
    let n := max 10 ⌈sweep * r / jsMaxSegLen⌉₊
    (List.range (n + 1)).map fun (i : ℕ) =>
      (cx + r * Real.cos (a0 + sweep * ((i : ℝ) / (n : ℝ))),
       cy + r * Real.sin (a0 + sweep * ((i : ℝ) / (n : ℝ))))
  else
    let e := cwEnd a0 a1
    let sweep := a0 - e
    let n := max 10 ⌈sweep * r / jsMaxSegLen⌉₊
    (List.range (n + 1)).map fun (i : ℕ) =>
      (cx + r * Real.cos (a0 - sweep * ((i : ℝ) / (n : ℝ))),
       cy + r * Real.sin (a0 - sweep * ((i : ℝ) / (n : ℝ))))

/-- `chosenArc` (jumper.js lines 164-182): construct both candidate arcs
between the two endpoint angles and keep the one whose midpoint satisfies the
outside predicate, with the shorter arc as tie-break. -/
noncomputable def chosenArc (cx cy r : ℝ) (pS pE : ℝ × ℝ) (want : ℝ → ℝ → Prop) :
    List (ℝ × ℝ) :=
  let a0 := angleOf cx cy pS.1 pS.2
  let a1 := angleOf cx cy pE.1 pE.2
  let arcCCW := arcPoints cx cy r a0 a1 true
  let arcCW := arcPoints cx cy r a0 a1 false
  let midCCW := arcCCW.getD (arcCCW.length / 2) (0, 0)
  let midCW := arcCW.getD (arcCW.length / 2) (0, 0)
  if want midCCW.1 midCCW.2 ∧ ¬ want midCW.1 midCW.2 then arcCCW
  else if want midCW.1 midCW.2 ∧ ¬ want midCCW.1 midCCW.2 then arcCW
  else if arcCCW.length ≤ arcCW.length then arcCCW
  else arcCW

/-- The two external tangent line touch-point pairs returned by
`externalTangents`: `top1`/`top2` are `top.p1`/`top.p2` of the source,
`bot1`/`bot2` are `bottom.p1`/`bottom.p2`. -/
structure ExtTan where
  top1 : ℝ × ℝ
  top2 : ℝ × ℝ
  bot1 : ℝ × ℝ
  bot2 : ℝ × ℝ

/-- `externalTangents` (jumper.js lines 185-212): external tangents of two
circles, `none` when the centers coincide or one circle contains the other
(`|r1 - r2|/d > 1`); the two tangent pairs are labelled top/bottom by the
`y`-coordinate of the touch point on the first circle. -/
noncomputable def externalTangents (c1x c1y r1 c2x c2y r2 : ℝ) : Option ExtTan :=
  let dx := c2x - c1x
  let dy := c2y - c1y
  let d := Real.sqrt (dx ^ 2 + dy ^ 2)
  if ¬ d > 0 then none
  else
    let k := (r1 - r2) / d
    if |k| > 1 then none
    else
      let base := angleOf 0 0 dx dy
      let phi := Real.arccos k
      let aA := base + phi
      let aB := base - phi
      let p1A := (c1x + r1 * Real.cos aA, c1y + r1 * Real.sin aA)
      let p2A := (c2x + r2 * Real.cos aA, c2y + r2 * Real.sin aA)
      let p1B := (c1x + r1 * Real.cos aB, c1y + r1 * Real.sin aB)
      let p2B := (c2x + r2 * Real.cos aB, c2y + r2 * Real.sin aB)
      if p1A.2 ≥ p1B.2 then some ⟨p1A, p2A, p1B, p2B⟩
      else some ⟨p1B, p2B, p1A, p2A⟩

/-- `buildOD` (jumper.js lines 224-276): assemble the jumper outline from the
left bolt-outer, center-outer and right bolt-outer circles — two external
tangent pairs, the four outside arcs, and the flat point list pushed in the
source's clockwise-ish order. -/
noncomputable def buildOD (cc RboltOuter RidOuter : ℝ) : Except String (List (ℝ × ℝ)) :=
  match externalTangents (-cc / 2) 0 RboltOuter 0 0 RidOuter with
  | none => .error "Cannot compute tangents between left bolt OD and center OD."
  | some tLC =>
    match externalTangents 0 0 RidOuter (cc / 2) 0 RboltOuter with
    | none => .error "Cannot compute tangents between center OD and right bolt OD."
    | some tCR =>
      let arcC_top := chosenArc 0 0 RidOuter tLC.top2 tCR.top1 fun _ y => y > 0
      let arcC_bot := chosenArc 0 0 RidOuter tCR.bot1 tLC.bot2 fun _ y => y < 0
      let arcL_out := chosenArc (-cc / 2) 0 RboltOuter tLC.bot1 tLC.top1 fun x _ => x < -cc / 2
      let arcR_out := chosenArc (cc / 2) 0 RboltOuter tCR.top2 tCR.bot2 fun x _ => x > cc / 2
      .ok ([tLC.top1, tLC.top2] ++ arcC_top.drop 1 ++ [tCR.top2] ++ arcR_out.drop 1
        ++ [tCR.bot1] ++ arcC_bot.drop 1 ++ [tLC.bot1] ++ arcL_out.drop 1)

/-- A piece of the assembled jumper perimeter: a straight tangent segment or
an arc (kept with the circle it is drawn on and its sampled points). -/
inductive ODPiece
  | straight (p q : ℝ × ℝ)
  | arc (cx cy r : ℝ) (pts : List (ℝ × ℝ))

/-- The `buildOD` assembly described piece by piece, in push order: straight
tangent, center top arc, straight, right outer arc, straight, center bottom
arc, straight, left outer arc. -/
noncomputable def buildODPieces (cc RboltOuter RidOuter : ℝ) : List ODPiece :=
  match externalTangents (-cc / 2) 0 RboltOuter 0 0 RidOuter with
  | none => []
  | some tLC =>
    match externalTangents 0 0 RidOuter (cc / 2) 0 RboltOuter with
    | none => []
    | some tCR =>
      [ODPiece.straight tLC.top1 tLC.top2,
       ODPiece.arc 0 0 RidOuter (chosenArc 0 0 RidOuter tLC.top2 tCR.top1 fun _ y => y > 0),
       ODPiece.straight tCR.top1 tCR.top2,
       ODPiece.arc (cc / 2) 0 RboltOuter
         (chosenArc (cc / 2) 0 RboltOuter tCR.top2 tCR.bot2 fun x _ => x > cc / 2),
       ODPiece.straight tCR.bot2 tCR.bot1,
       ODPiece.arc 0 0 RidOuter (chosenArc 0 0 RidOuter tCR.bot1 tLC.bot2 fun _ y => y < 0),
       ODPiece.straight tLC.bot2 tLC.bot1,
       ODPiece.arc (-cc / 2) 0 RboltOuter
         (chosenArc (-cc / 2) 0 RboltOuter tLC.bot1 tLC.top1 fun x _ => x < -cc / 2)]

/-- The points a piece contributes after the first (already-emitted) point:
a straight segment contributes its far endpoint, an arc its sampled points
minus the first (the source's `slice(1)`). -/
def pieceTail : ODPiece → List (ℝ × ℝ)
  | .straight _ q => [q]
  | .arc _ _ _ pts => pts.drop 1

/-- Flatten a piece decomposition starting from the given first point. -/
def flattenPieces (start : ℝ × ℝ) (ps : List ODPiece) : List (ℝ × ℝ) :=
  start :: ps.flatMap pieceTail

/-- Number of straight segments in a piece decomposition. -/
def straightCount (ps : List ODPiece) : ℕ :=
  (ps.filter fun p =>
    match p with
    | .straight _ _ => true
    | .arc _ _ _ _ => false).length

/-- Number of arcs in a piece decomposition. -/
def arcCount (ps : List ODPiece) : ℕ :=
  (ps.filter fun p =>
    match p with
    | .straight _ _ => false
    | .arc _ _ _ _ => true).length

/-- The circles (center and radius) the arcs of a decomposition are drawn
on, in order. -/
def arcCircles (ps : List ODPiece) : List (ℝ × ℝ × ℝ) :=
  ps.filterMap fun p =>
    match p with
    | .straight _ _ => none
    | .arc cx cy r _ => some (cx, cy, r)

/-- The first assembled outline point, `L_top`: the upper tangent touch point
on the left bolt-outer circle. -/
noncomputable def LTopPoint (cc RboltOuter RidOuter : ℝ) : ℝ × ℝ :=
  (-cc / 2 + RboltOuter * Real.cos (Real.arccos ((RboltOuter - RidOuter) / (cc / 2))),
   RboltOuter * Real.sin (Real.arccos ((RboltOuter - RidOuter) / (cc / 2))))

/-- `validateAndPreview` (jumper.js lines 349-428) from the already-parsed
numeric field values on: positivity checks, then hard hole collisions, then
the tangent containment precondition with its distinct message, then
`buildOD`. -/
noncomputable def validateAndPreview (idDia boltDia cc boltEdgeToOD idEdgeToOD : ℝ) :
    Except (List String) (List (ℝ × ℝ)) :=
  let e1 := (if idDia ≤ 0 then ["Center ID Diameter must be a positive number."] else [])
    ++ (if boltDia ≤ 0 then ["Bolt Hole Diameter must be a positive number."] else [])
    ++ (if cc ≤ 0 then ["Bolt Hole Center To Center must be a positive number."] else [])
    ++ (if boltEdgeToOD < 0 then ["Bolt Hole Edge To OD must be zero or a positive number."] else [])
    ++ (if idEdgeToOD < 0 then ["ID Edge To OD must be zero or a positive number."] else [])
  if e1 ≠ [] then .error e1
  else
    let idR := idDia / 2
    let boltR := boltDia / 2
    let e2 := (if cc ≤ boltDia then ["Bolt holes are touching/overlapping each other."] else [])
      ++ (if cc / 2 ≤ boltR + idR then
            ["Bolt holes are touching/overlapping the center ID hole."] else [])
    if e2 ≠ [] then .error e2
    else
      let RboltOuter := boltR + boltEdgeToOD
      let RidOuter := idR + idEdgeToOD
      if cc / 2 ≤ |RboltOuter - RidOuter| then
        .error ["OD offsets create a contained-circle condition — cannot form straight tangent lines. Adjust OD offsets or spacing."]
      else
        match buildOD cc RboltOuter RidOuter with
        | .error m => .error [m]
        | .ok pts => .ok pts

end Jumper

/-! ## Theorems -/

namespace CadGen

theorem trimList_subset {l : List Char} {c : Char} (h : c ∈ trimList l) : c ∈ l := by
  unfold trimList at h
  rw [List.mem_reverse] at h
  have h2 := (List.dropWhile_sublist _).mem h
  rw [List.mem_reverse] at h2
  exact (List.dropWhile_sublist _).mem h2

theorem collapseWsAux_mem {l : List Char} {b : Bool} {c : Char}
    (h : c ∈ collapseWsAux b l) : c = ' ' ∨ c ∈ l := by
  induction l generalizing b with
  | nil => simp [collapseWsAux] at h
  | cons d rest ih =>
    rw [collapseWsAux] at h
    by_cases hws : isWsB d
    · rw [if_pos hws] at h
      by_cases hb : b
      · rw [if_pos hb] at h
        rcases ih h with h2 | h2
        · exact Or.inl h2
        · exact Or.inr (List.mem_cons_of_mem _ h2)
      · rw [if_neg hb] at h
        rcases List.mem_cons.mp h with h2 | h2
        · exact Or.inl h2
        · rcases ih h2 with h3 | h3
          · exact Or.inl h3
          · exact Or.inr (List.mem_cons_of_mem _ h3)
    · rw [if_neg hws] at h
      rcases List.mem_cons.mp h with h2 | h2
      · exact Or.inr (by simp [h2])
      · rcases ih h2 with h3 | h3
        · exact Or.inl h3
        · exact Or.inr (List.mem_cons_of_mem _ h3)

theorem collapseWs_mem {l : List Char} {c : Char} (h : c ∈ collapseWs l) :
    c = ' ' ∨ c ∈ l :=
  collapseWsAux_mem h

theorem splitChar_mem {sep : Char} {l : List Char} {p : List Char} {c : Char}
    (hp : p ∈ splitChar sep l) (hc : c ∈ p) : c ∈ l := by
  induction l generalizing p with
  | nil =>
    simp only [splitChar, List.mem_singleton] at hp
    subst hp
    simp at hc
  | cons d rest ih =>
    rw [splitChar] at hp
    by_cases hd : d = sep
    · rw [if_pos hd] at hp
      rcases List.mem_cons.mp hp with h | h
      · subst h; simp at hc
      · exact List.mem_cons_of_mem _ (ih h hc)
    · rw [if_neg hd] at hp
      rcases hrec : splitChar sep rest with _ | ⟨h0, t0⟩
      · rw [hrec] at hp
        simp only [List.mem_singleton] at hp
        subst hp
        simp only [List.mem_singleton] at hc
        simp [hc]
      · rw [hrec] at hp
        rcases List.mem_cons.mp hp with h | h
        · subst h
          rcases List.mem_cons.mp hc with h2 | h2
          · simp [h2]
          · refine List.mem_cons_of_mem _ (ih ?_ h2)
            rw [hrec]
            exact List.mem_cons_self _ _
        · refine List.mem_cons_of_mem _ (ih ?_ hc)
          rw [hrec]
          exact List.mem_cons_of_mem _ h

theorem replaceDash_no_dash {l : List Char} : '-' ∉ replaceDash l := by
  intro h
  rcases List.mem_map.mp h with ⟨c, _, hc⟩
  by_cases hd : c = '-' <;> simp [hd] at hc

theorem jsUnsigned_nonneg {l : List Char} {q : ℚ} (h : jsUnsigned l = some q) :
    0 ≤ q := by
  unfold jsUnsigned at h
  split_ifs at h with h1 h2 h3 h4 <;>
  first
    | exact Option.noConfusion h
    | · obtain ⟨e, _, hv⟩ := Option.map_eq_some'.mp h
        subst hv
        positivity

theorem jsNumLit_nonneg {l : List Char} {q : ℚ} (hnd : '-' ∉ l)
    (h : jsNumLit l = some q) : 0 ≤ q := by
  unfold jsNumLit at h
  split_ifs at h with h1 h2
  · exact jsUnsigned_nonneg h
  · exact absurd (List.mem_of_mem_head? h2) hnd
  · exact jsUnsigned_nonneg h

theorem jsNumberL_nonneg {l : List Char} {q : ℚ} (hnd : '-' ∉ l)
    (h : jsNumberL l = some q) : 0 ≤ q := by
  unfold jsNumberL at h
  split_ifs at h
  · simp only [Option.some.injEq] at h
    subst h; norm_num
  · exact jsNumLit_nonneg (fun hm => hnd (trimList_subset hm)) h

theorem getD_nil_or_mem (parts : List (List Char)) (i : ℕ) :
    parts.getD i [] = [] ∨ parts.getD i [] ∈ parts := by
  by_cases hlt : i < parts.length
  · right
    rw [List.getD_eq_getElem _ _ hlt]
    exact parts.getElem_mem hlt
  · left
    exact List.getD_eq_default _ _ (by omega)

/-- Characters of the collapsed, dash-stripped string are never `'-'`. -/
theorem s1_no_dash (s0 : List Char) : '-' ∉ collapseWs (replaceDash s0) := by
  intro h
  rcases collapseWs_mem h with h2 | h2
  · exact absurd h2 (by decide)
  · exact replaceDash_no_dash h2

theorem parts_no_dash {s0 : List Char} {sep : Char} {i : ℕ} :
    '-' ∉ (splitChar sep (collapseWs (replaceDash s0))).getD i [] := by
  intro h
  rcases getD_nil_or_mem (splitChar sep (collapseWs (replaceDash s0))) i with he | hm
  · rw [he] at h; simp at h
  · exact s1_no_dash s0 (splitChar_mem hm h)

theorem comps_no_dash {s0 : List Char} {i j : ℕ} :
    '-' ∉ (splitChar '/' ((splitChar ' ' (collapseWs (replaceDash s0))).getD i [])).getD j [] := by
  intro h
  rcases getD_nil_or_mem (splitChar '/' ((splitChar ' ' (collapseWs (replaceDash s0))).getD i [])) j with he | hm
  · rw [he] at h; simp at h
  · exact parts_no_dash (splitChar_mem hm h)

theorem comps1_no_dash {s0 : List Char} {j : ℕ} :
    '-' ∉ (splitChar '/' (collapseWs (replaceDash s0))).getD j [] := by
  intro h
  rcases getD_nil_or_mem (splitChar '/' (collapseWs (replaceDash s0))) j with he | hm
  · rw [he] at h; simp at h
  · exact s1_no_dash s0 (splitChar_mem hm h)

theorem mixedCombine_nonneg {a b c : Option ℚ} {q : ℚ}
    (ha : ∀ x, a = some x → 0 ≤ x) (hb : ∀ x, b = some x → 0 ≤ x)
    (hc : ∀ x, c = some x → 0 ≤ x) (h : mixedCombine a b c = some q) : 0 ≤ q := by
  unfold mixedCombine at h
  split at h
  · rename_i w nv dv
    split_ifs at h with hdz
    all_goals first
      | exact Option.noConfusion h
      | (injection h with hq; rw [← hq];
         exact add_nonneg (ha _ rfl) (div_nonneg (hb _ rfl) (hc _ rfl)))
  · exact Option.noConfusion h

theorem fracCombine_nonneg {b c : Option ℚ} {q : ℚ}
    (hb : ∀ x, b = some x → 0 ≤ x) (hc : ∀ x, c = some x → 0 ≤ x)
    (h : fracCombine b c = some q) : 0 ≤ q := by
  unfold fracCombine at h
  split at h
  · rename_i nv dv
    split_ifs at h with hdz
    all_goals first
      | exact Option.noConfusion h
      | (injection h with hq; rw [← hq];
         exact div_nonneg (hb _ rfl) (hc _ rfl))
  · exact Option.noConfusion h

/-- The shared parser can only produce non-negative values: after the hyphen
replacement, no token handed to the `Number(...)` model contains a minus sign. -/
theorem parseInches_nonneg (s : String) (q : ℚ) (h : parseInches s = some q) :
    0 ≤ q := by
  simp only [parseInches] at h
  split_ifs at h with h0 hb1 hb2
  all_goals first
    | exact Option.noConfusion h
    | exact mixedCombine_nonneg (fun x hx => jsNumberL_nonneg parts_no_dash hx)
        (fun x hx => jsNumberL_nonneg comps_no_dash hx)
        (fun x hx => jsNumberL_nonneg comps_no_dash hx) h
    | exact fracCombine_nonneg (fun x hx => jsNumberL_nonneg comps1_no_dash hx)
        (fun x hx => jsNumberL_nonneg comps1_no_dash hx) h
    | exact jsNumberL_nonneg (s1_no_dash _) h

end CadGen

/-- C10: for every input string, the dimension parser shared by the ellipse,
flange, and jumper generators never returns a negative value — it replaces
every hyphen with a space before tokenizing, so a leading minus sign is
discarded rather than rejected; in particular `"-5"` parses to `5`. -/
theorem C10_shared_parser_never_negative :
    (∀ (s : String) (q : ℚ), CadGen.parseInches s = some q → 0 ≤ q) ∧
      CadGen.parseInches "-5" = some 5 := by
  refine ⟨CadGen.parseInches_nonneg, ?_⟩
  have h : CadGen.parseInches "-5" = some ((5 : ℚ) * 10 ^ (0 : ℤ)) := by rfl
  rw [h]
  norm_num

/-- Witness for C10 at the concrete input `"-5"`. -/
theorem C10_shared_parser_never_negative_witness :
    CadGen.parseInches "-5" = some 5 ∧ (0 : ℚ) ≤ 5 :=
  ⟨C10_shared_parser_never_negative.2,
    C10_shared_parser_never_negative.1 "-5" 5 C10_shared_parser_never_negative.2⟩

/-- C3 counterexample: the dimension parser shared by the ellipse, flange and
jumper generators maps `"-"` to the successfully parsed value `0` (the hyphen
becomes a space and the whitespace remainder converts to 0 under JS `Number`),
not to a `ParseError` as the claim states. -/
theorem C3_dash_parses_to_zero : CadGen.parseInches "-" = some 0 := by rfl

/-- C3 (amended): the firetube parser behaves exactly as claimed — it
fails on the empty string, on a zero denominator, and on unparsable tokens
(`"1 1/2"` → 1.5, `"3/4"` → 0.75, `"-"` and `"1/0"` are errors) — while the
shared ellipse/flange/jumper parser agrees on the fraction and empty cases but
parses `"-"` to `0` instead of failing. -/
theorem C3_parser_examples :
    Firetube.parseInches "1 1/2" = .ok (3 / 2)
    ∧ Firetube.parseInches "3/4" = .ok (3 / 4)
    ∧ Firetube.parseInches "-" = .error "Invalid number \"-\""
    ∧ Firetube.parseInches "1/0" = .error "Invalid fraction \"1/0\""
    ∧ Firetube.parseInches "" = .error "Empty value"
    ∧ CadGen.parseInches "1 1/2" = some (3 / 2)
    ∧ CadGen.parseInches "3/4" = some (3 / 4)
    ∧ CadGen.parseInches "1/0" = none
    ∧ CadGen.parseInches "" = none
    ∧ CadGen.parseInches "-" = some 0 := by
  refine ⟨?_, ?_, by rfl, by rfl, by rfl, ?_, ?_, ?_, by rfl, by rfl⟩
  · have h : Firetube.parseInches "1 1/2" = .ok ((1 : ℚ) + (1 : ℚ) / (2 : ℚ)) := by rfl
    rw [h]
    norm_num
  · have h : Firetube.parseInches "3/4" = .ok ((3 : ℚ) / (4 : ℚ)) := by rfl
    rw [h]
  · have h : CadGen.parseInches "1 1/2" =
        CadGen.mixedCombine (some ((1 : ℚ) * 10 ^ (0 : ℤ))) (some ((1 : ℚ) * 10 ^ (0 : ℤ)))
          (some ((2 : ℚ) * 10 ^ (0 : ℤ))) := by rfl
    rw [h]
    simp only [CadGen.mixedCombine]
    norm_num
  · have h : CadGen.parseInches "3/4" =
        CadGen.fracCombine (some ((3 : ℚ) * 10 ^ (0 : ℤ))) (some ((4 : ℚ) * 10 ^ (0 : ℤ))) := by rfl
    rw [h]
    simp only [CadGen.fracCombine]
    norm_num
  · have h : CadGen.parseInches "1/0" =
        CadGen.fracCombine (some ((1 : ℚ) * 10 ^ (0 : ℤ))) (some ((0 : ℚ) * 10 ^ (0 : ℤ))) := by rfl
    rw [h]
    simp only [CadGen.fracCombine]
    norm_num

namespace CadGen

theorem jsMod_zero_left (b : ℝ) : jsMod 0 b = 0 := by
  simp [jsMod, jsTrunc]

theorem getD_map_range {f : ℕ → ℝ} {n j : ℕ} (h : j < n) :
    ((List.range n).map f).getD j 0 = f j := by
  rw [List.getD_eq_getElem _ _ (by simpa using h)]
  simp

theorem jsMod_self {b : ℝ} (hb : b ≠ 0) : jsMod b b = 0 := by
  unfold jsMod jsTrunc
  rw [div_self hb, if_neg (by norm_num : ¬ (1 : ℝ) < 0)]
  simp

end CadGen

/-- C9: the obround arc-length parameterization closes up — for all
`L ≥ W > 0` the point at arc length 0 equals the point at arc length
`P(L,W) = 2(L-W) + πW` exactly (the JS double-`%` normalization maps both
distances to the same region offset 0). -/
theorem C9_obround_closure (L W : ℝ) (hW : 0 < W) (hLW : W ≤ L) :
    Firetube.perimeterPointObround L W 0 =
      Firetube.perimeterPointObround L W (Firetube.obroundPerimeter L W) := by
  have hT : 2 * (L - W) + 2 * Real.pi * (W / 2) ≠ 0 := by
    have h1 : 0 < 2 * Real.pi * (W / 2) := by positivity
    have h2 : 0 ≤ 2 * (L - W) := by linarith
    linarith
  unfold Firetube.perimeterPointObround Firetube.obroundPerimeter
  simp only [CadGen.jsMod_zero_left, zero_add, CadGen.jsMod_self hT]

/-- Witness for C9 at the concrete obround `L = 3`, `W = 2`. -/
theorem C9_obround_closure_witness :
    Firetube.perimeterPointObround 3 2 0 =
      Firetube.perimeterPointObround 3 2 (Firetube.obroundPerimeter 3 2) :=
  C9_obround_closure 3 2 (by norm_num) (by norm_num)

/-- C1 counterexample: firetube geometry validation stops at the first
problem — on an input violating both the OD-ordering constraint
(`odLong = 4 < odShort = 5`) and the ID-ordering constraint
(`idLong = 1 < idShort = 2`), `computeInputs` reports only the single
OD-ordering error instead of a list containing every violated constraint. -/
theorem C1_firetube_first_error_only :
    Firetube.computeInputs 4 5 1 2 3 3 4 1 "on" =
        .error "Long Side OD must be the same as or larger than Short Side OD."
      ∧ (1 : ℝ) < 2 := by
  constructor
  · unfold Firetube.computeInputs
    rw [if_pos (by norm_num : (4 : ℝ) < 5)]
  · norm_num

/-- C7: whenever the prior dimensional constraints accept the inputs but the
center-to-center spacing `P/N` does not exceed the hole diameter, firetube
validation fails hard with the hole-overlap error (never a warning), and the
validate-then-place pipeline produces no hole centers. -/
theorem C7_hole_overlap_rejected
    (odLong odShort idLong idShort bcLong bcShort : ℝ)
    (holeCount : ℤ) (holeDia : ℝ) (mode : String)
    (h1 : ¬ odLong < odShort) (h2 : ¬ idLong < idShort) (h3 : ¬ bcLong < bcShort)
    (h4 : ¬ (idLong ≥ odLong ∨ idShort ≥ odShort))
    (h5 : ¬ (bcLong > odLong ∨ bcShort > odShort))
    (h6 : 0 < holeCount) (h7 : 0 < holeDia)
    (h8 : Firetube.obroundPerimeter bcLong bcShort / (holeCount : ℝ) ≤ holeDia) :
    Firetube.validateThenPlace odLong odShort idLong idShort bcLong bcShort
        holeCount holeDia mode =
      .error "Bolt holes overlap: Bolt Hole Center To Center is not large enough for the hole diameter." := by
  unfold Firetube.validateThenPlace Firetube.computeInputs
  rw [if_neg h1, if_neg h2, if_neg h3, if_neg h4, if_neg h5,
    if_neg (not_not_intro h6), if_neg (not_not_intro h7), if_pos h8]
  rfl

/-- Witness for C7 at the spec's rejection example `bcLong = bcShort = 10`,
`holeCount = 40`, `holeDia = 1` (so `c2c = π/4 < 1`), with OD 12 and ID 8. -/
theorem C7_hole_overlap_rejected_witness :
    Firetube.validateThenPlace 12 12 8 8 10 10 40 1 "on" =
      .error "Bolt holes overlap: Bolt Hole Center To Center is not large enough for the hole diameter." :=
  C7_hole_overlap_rejected 12 12 8 8 10 10 40 1 "on"
    (by norm_num) (by norm_num) (by norm_num) (by push_neg; norm_num)
    (by push_neg; norm_num) (by norm_num) (by norm_num)
    (by
      unfold Firetube.obroundPerimeter
      rw [div_le_one (by positivity)]
      push_cast
      nlinarith [Real.pi_le_four])

/-- C8: for every firetube input bundle, hole `i` is placed at arc length
`s_i = i*(P/N) + shift` along the bolt-circle obround, where `shift = 0`
on-center and `shift = (P/N)/2` off-center, so consecutive placed holes are
exactly `P/N` apart in arc length. -/
theorem C8_hole_spacing (i : Firetube.Inputs) :
    (Firetube.computeHoleCenters i).1 =
        (Firetube.holeArcLengths i).map
          (Firetube.perimeterPointObround i.bcLong i.bcShort)
      ∧ (∀ j : ℕ, j < (Firetube.holeArcLengths i).length →
          (Firetube.holeArcLengths i).getD j 0 =
            (j : ℝ) * (Firetube.obroundPerimeter i.bcLong i.bcShort / (i.holeCount : ℝ))
              + (if i.centerMode = "off"
                 then Firetube.obroundPerimeter i.bcLong i.bcShort / (i.holeCount : ℝ) / 2
                 else 0))
      ∧ (∀ j : ℕ, j + 1 < (Firetube.holeArcLengths i).length →
          (Firetube.holeArcLengths i).getD (j + 1) 0
              - (Firetube.holeArcLengths i).getD j 0 =
            Firetube.obroundPerimeter i.bcLong i.bcShort / (i.holeCount : ℝ)) := by
  refine ⟨?_, ?_, ?_⟩
  · simp only [Firetube.computeHoleCenters, Firetube.holeArcLengths, List.map_map]
    rfl
  · intro j hj
    simp only [Firetube.holeArcLengths, List.length_map, List.length_range] at hj
    simp only [Firetube.holeArcLengths]
    rw [CadGen.getD_map_range hj]
  · intro j hj
    simp only [Firetube.holeArcLengths, List.length_map, List.length_range] at hj
    simp only [Firetube.holeArcLengths]
    rw [CadGen.getD_map_range hj, CadGen.getD_map_range (by omega)]
    push_cast
    ring

/-- Witness for C8 at `bcLong = bcShort = 10`, 4 holes, on-center mode: the
first two holes are `P/4` apart in arc length. -/
theorem C8_hole_spacing_witness :
    (Firetube.holeArcLengths ⟨12, 12, 8, 8, 10, 10, 4, 1, "on"⟩).getD 1 0
        - (Firetube.holeArcLengths ⟨12, 12, 8, 8, 10, 10, 4, 1, "on"⟩).getD 0 0 =
      Firetube.obroundPerimeter 10 10 / 4 := by
  have h := (C8_hole_spacing ⟨12, 12, 8, 8, 10, 10, 4, 1, "on"⟩).2.2 0
    (by simp [Firetube.holeArcLengths])
  simpa using h

namespace CadGen

theorem foldl_append_flatMap {α β : Type _} (f : α → List β) (l : List α) :
    ∀ init : List β, l.foldl (fun out p => out ++ f p) init = init ++ l.flatMap f := by
  induction l with
  | nil => intro init; simp
  | cons a t ih =>
    intro init
    simp only [List.foldl_cons, List.flatMap_cons, ih, List.append_assoc]

end CadGen

/-- C1 (amended): flange geometry validation accumulates every violated check
of each of its two phases into one list and fails with exactly that full,
non-empty list (succeeding iff both accumulated lists are empty), but
firetube validation instead stops at the first violated constraint: whenever
the first check `odLong < odShort` fires, the single OD-ordering error is
reported regardless of any further violations. -/
theorem C1_error_accumulation :
    (∀ (odX odY : ℝ) (cornerR : Option ℝ) (bhCCX bhCCY bhDia cutoutDia : ℝ),
      ((∃ s, Flange.validateCircle odX odY cornerR bhCCX bhCCY bhDia cutoutDia = .ok s) ↔
        Flange.basicErrsCircle odX odY cornerR bhCCX bhCCY bhDia cutoutDia = []
          ∧ Flange.clearErrsCircle odX odY (cornerR.getD 0) bhCCX bhCCY bhDia cutoutDia = [])
      ∧ ∀ l, Flange.validateCircle odX odY cornerR bhCCX bhCCY bhDia cutoutDia = .error l →
          (l = Flange.basicErrsCircle odX odY cornerR bhCCX bhCCY bhDia cutoutDia
            ∨ l = Flange.clearErrsCircle odX odY (cornerR.getD 0) bhCCX bhCCY bhDia cutoutDia)
          ∧ l ≠ [])
    ∧ (∀ (odLong odShort idLong idShort bcLong bcShort : ℝ)
        (hc : ℤ) (hd : ℝ) (mode : String),
        odLong < odShort →
          Firetube.computeInputs odLong odShort idLong idShort bcLong bcShort hc hd mode =
            .error "Long Side OD must be the same as or larger than Short Side OD.") := by
  constructor
  · intro odX odY cornerR bhCCX bhCCY bhDia cutoutDia
    constructor
    · constructor
      · rintro ⟨s, hs⟩
        simp only [Flange.validateCircle] at hs
        split_ifs at hs with h1 h2
        all_goals first
          | exact Except.noConfusion hs
          | exact ⟨not_not.mp h1, not_not.mp h2⟩
      · rintro ⟨h1, h2⟩
        have hok : Flange.validateCircle odX odY cornerR bhCCX bhCCY bhDia cutoutDia =
            .ok ⟨odX, odY, cornerR.getD 0, bhCCX, bhCCY, bhDia, cutoutDia⟩ := by
          simp only [Flange.validateCircle]
          rw [if_neg (not_not_intro h1), if_neg (not_not_intro h2)]
        exact ⟨_, hok⟩
    · intro l hl
      simp only [Flange.validateCircle] at hl
      split_ifs at hl with h1 h2
      all_goals first
        | exact Except.noConfusion hl
        | (injection hl with he; exact ⟨Or.inl he.symm, he ▸ h1⟩)
        | (injection hl with he; exact ⟨Or.inr he.symm, he ▸ h2⟩)
  · intro odLong odShort idLong idShort bcLong bcShort hc hd mode hlt
    unfold Firetube.computeInputs
    rw [if_pos hlt]

/-- Witness for C1's firetube half at a concrete input. -/
theorem C1_error_accumulation_witness :
    Firetube.computeInputs 3 7 1 1 1 1 1 1 "on" =
      .error "Long Side OD must be the same as or larger than Short Side OD." :=
  C1_error_accumulation.2 3 7 1 1 1 1 1 1 "on" (by norm_num)

/-- C5 counterexample: the firetube serializer's `fmt` rounds every coordinate
to six decimal places — at the coordinate value 1/6 it emits the value
166667/1000000, which differs from 1/6, so coordinates are not emitted at full
double precision. -/
theorem C5_firetube_fmt_rounds :
    Firetube.jsRound6 (1 / 6) = 166667 / 1000000 ∧
      Firetube.jsRound6 (1 / 6) ≠ (1 / 6 : ℝ) := by
  have hfl : ⌊(1 / 6 : ℝ) * 1000000 + 1 / 2⌋ = 166667 := by
    rw [Int.floor_eq_iff]
    constructor <;> norm_num
  constructor
  · unfold Firetube.jsRound6
    rw [hfl]
    norm_num
  · unfold Firetube.jsRound6
    rw [hfl]
    norm_num

/-- C5 (amended): the ellipse/flange/jumper serializers emit every coordinate
through the direct number-to-string conversion with no arithmetic applied to
the value, but the firetube serializer first rounds every coordinate to six
decimal places with `jsRound6`, which is the identity exactly on multiples of
10⁻⁶. -/
theorem C5_coordinate_precision :
    (∀ x : ℝ, Firetube.jsRound6 x = x ↔ ∃ m : ℤ, x * 1000000 = (m : ℝ))
    ∧ (∀ (ts : ℝ → String) (points : List (ℝ × ℝ)) (layer : String) (closed : Bool),
        Flange.dxfPolylineLines ts points layer closed =
          ["0", "POLYLINE", "8", layer, "66", "1", "70", if closed then "1" else "0",
           "10", "0", "20", "0", "30", "0"]
            ++ points.flatMap
                (fun p => ["0", "VERTEX", "8", layer, "10", ts p.1, "20", ts p.2, "30", "0"])
            ++ ["0", "SEQEND"])
    ∧ (∀ (ts : ℝ → String) (layer : String) (cx cy r : ℝ),
        Firetube.addCircleLines ts layer cx cy r =
          ["0", "CIRCLE", "8", layer, "10", ts (Firetube.jsRound6 cx),
           "20", ts (Firetube.jsRound6 cy), "30", "0", "40", ts (Firetube.jsRound6 r)]) := by
  refine ⟨?_, ?_, ?_⟩
  · intro x
    constructor
    · intro h
      unfold Firetube.jsRound6 at h
      refine ⟨⌊x * 1000000 + 1 / 2⌋, ?_⟩
      rw [div_eq_iff (by norm_num : (1000000 : ℝ) ≠ 0)] at h
      linarith
    · rintro ⟨m, hm⟩
      unfold Firetube.jsRound6
      have hfree : ⌊(m : ℝ) + 1 / 2⌋ = m := by
        rw [add_comm, Int.floor_add_int]
        norm_num
      rw [hm, hfree]
      have h6 : (1000000 : ℝ) ≠ 0 := by norm_num
      field_simp
      linarith
  · intro ts points layer closed
    unfold Flange.dxfPolylineLines
    rw [CadGen.foldl_append_flatMap]
  · intro ts layer cx cy r
    rfl

/-- C2: the claim states a well-formed TABLES section with exactly the needed
layer records; the firetube `buildDXF` instead pushes the six-line `TABLE`
header twice and pops only one array element (its comment says "noop"),
leaving a truncated extra TABLE record, so from line 25 on the group-code /
value alternation is broken: line 26 — a group-code position — holds the
value `"TABLE"`, which is not a numeric group code.  The identical header of
the ellipse/flange/jumper serializers keeps the alternation intact. -/
theorem C2_firetube_tables_malformed (ts : ℝ → String) (i : Firetube.Inputs)
    (centers : List (ℝ × ℝ)) (h1 : ¬ i.odLong < i.odShort) (h2 : ¬ i.idLong < i.idShort) :
    ∃ l, Firetube.buildDXFLines ts i centers = .ok l
      ∧ l.get? 26 = some "TABLE"
      ∧ 26 % 2 = 0
      ∧ CadGen.isNumCode "TABLE" = false
      ∧ CadGen.evenLinesNumeric Flange.dxfHeaderLines = true := by
  unfold Firetube.buildDXFLines Firetube.addObroundOutlineLines
  rw [if_neg h1, if_neg h2]
  exact ⟨_, rfl, rfl, by decide, by decide, by decide⟩

/-- Witness for C2 on a concrete valid firetube input (the malformed tables
prefix is independent of the input values). -/
theorem C2_firetube_tables_malformed_witness :
    ∃ l, Firetube.buildDXFLines (fun _ => "") ⟨10, 8, 6, 5, 8, 6, 4, 1, "on"⟩ [] = .ok l
      ∧ l.get? 26 = some "TABLE"
      ∧ 26 % 2 = 0
      ∧ CadGen.isNumCode "TABLE" = false
      ∧ CadGen.evenLinesNumeric Flange.dxfHeaderLines = true :=
  C2_firetube_tables_malformed (fun _ => "") ⟨10, 8, 6, 5, 8, 6, 4, 1, "on"⟩ []
    (by norm_num) (by norm_num)

/-- C6: the flange input set `odX = odY = 5`, corner radius 1/2, bolt-hole
diameter 1/2 at center-to-center 3.5 x 3.5, with a circular cutout of
diameter 3, validates with zero errors, and the DXF exported from the
resulting spec contains exactly 1 POLYLINE entity on layer "Perimeter" and
exactly 5 CIRCLE entities (4 bolt holes and the cutout) on layer "Holes";
the emitted line list is exactly the serialization of those entities between
the fixed header and footer. -/
theorem C6_flange_example :
    Flange.validateCircle 5 5 (some (1 / 2)) (7 / 2) (7 / 2) (1 / 2) 3 =
        .ok ⟨5, 5, 1 / 2, 7 / 2, 7 / 2, 1 / 2, 3⟩
      ∧ Flange.polyCountOn "Perimeter"
          (Flange.entsCircle ⟨5, 5, 1 / 2, 7 / 2, 7 / 2, 1 / 2, 3⟩) = 1
      ∧ Flange.circleCountOn "Holes"
          (Flange.entsCircle ⟨5, 5, 1 / 2, 7 / 2, 7 / 2, 1 / 2, 3⟩) = 5
      ∧ ∀ ts : ℝ → String, ∀ v : Flange.Spec,
          Flange.downloadDXFLines ts v =
            Flange.dxfHeaderLines ++ (Flange.entsCircle v).flatMap (Flange.entLines ts)
              ++ Flange.dxfFooterLines := by
  have hb : Flange.basicErrsCircle 5 5 (some (1 / 2)) (7 / 2) (7 / 2) (1 / 2) 3 = [] := by
    norm_num [Flange.basicErrsCircle, Flange.clampRadius, min_def, max_def]
  have hgOD : ∀ x y : ℝ, |x| = 7 / 4 → |y| = 7 / 4 →
      Flange.gapCircleToRoundedOD x y (1 / 2 / 2) 5 5 (1 / 2) = 1 / 2 := by
    intro x y hx hy
    unfold Flange.gapCircleToRoundedOD Flange.sdfRoundedRect Flange.clampRadius
    rw [hx, hy]
    norm_num [min_def, max_def, Real.sqrt_zero]
  have g1 := hgOD (-(7 / 2 / 2)) (-(7 / 2 / 2)) (by norm_num) (by norm_num)
  have g2 := hgOD (7 / 2 / 2) (-(7 / 2 / 2)) (by norm_num) (by norm_num)
  have g3 := hgOD (-(7 / 2 / 2)) (7 / 2 / 2) (by norm_num) (by norm_num)
  have g4 := hgOD (7 / 2 / 2) (7 / 2 / 2) (by norm_num) (by norm_num)
  have hgg : ∀ x y : ℝ, x ^ 2 = 49 / 16 → y ^ 2 = 49 / 16 →
      ¬ (Real.sqrt (x ^ 2 + y ^ 2) - (1 / 2 / 2 + 3 / 2) ≤ 0) := by
    intro x y hx hy
    rw [not_le, hx, hy]
    have h : (7 / 4 : ℝ) < Real.sqrt (49 / 16 + 49 / 16) := by
      rw [Real.lt_sqrt (by norm_num)]
      norm_num
    linarith
  have gg1 := hgg (-(7 / 2 / 2)) (-(7 / 2 / 2)) (by norm_num) (by norm_num)
  have gg2 := hgg (7 / 2 / 2) (-(7 / 2 / 2)) (by norm_num) (by norm_num)
  have gg3 := hgg (-(7 / 2 / 2)) (7 / 2 / 2) (by norm_num) (by norm_num)
  have gg4 := hgg (7 / 2 / 2) (7 / 2 / 2) (by norm_num) (by norm_num)
  have hcut : Flange.gapCircleToRoundedOD 0 0 (3 / 2) 5 5 (1 / 2) = 1 := by
    unfold Flange.gapCircleToRoundedOD Flange.sdfRoundedRect Flange.clampRadius
    norm_num [min_def, max_def, Real.sqrt_zero]
  have hc : Flange.clearErrsCircle 5 5 (1 / 2) (7 / 2) (7 / 2) (1 / 2) 3 = [] := by
    simp only [Flange.clearErrsCircle]
    rw [if_neg (by rw [g1, g2, g3, g4]; norm_num [min_def]),
      if_neg (by norm_num : ¬ ((7 : ℝ) / 2 ≤ 1 / 2)),
      if_neg (by norm_num : ¬ ((7 : ℝ) / 2 ≤ 1 / 2)),
      if_neg (by rw [hcut]; norm_num),
      if_neg (by
        rw [not_le]
        have e1 := not_le.mp gg1
        have e2 := not_le.mp gg2
        have e3 := not_le.mp gg3
        have e4 := not_le.mp gg4
        simp only [lt_min_iff]
        exact ⟨⟨⟨e1, e2⟩, e3⟩, e4⟩)]
    rfl
  refine ⟨?_, by rfl, by rfl, ?_⟩
  · simp only [Flange.validateCircle, Option.getD_some]
    rw [if_neg (not_not_intro hb), if_neg (not_not_intro hc)]
  · intro ts v
    simp only [Flange.downloadDXFLines, Flange.entsCircle, Flange.entLines, Flange.holePts,
      List.flatMap_cons, List.flatMap_append, List.flatMap_nil, List.map_cons, List.map_nil,
      List.append_assoc, List.append_nil]

namespace Jumper

theorem arcPoints_getLast (cx cy r a0 a1 : ℝ) (b : Bool) :
    (arcPoints cx cy r a0 a1 b).getLast? =
      some (cx + r * Real.cos a1, cy + r * Real.sin a1) := by
  cases b with
  | true =>
    simp only [arcPoints, if_true]
    set n := max 10 ⌈(ccwEnd a0 a1 - a0) * r / jsMaxSegLen⌉₊ with hn
    have hn0 : (n : ℝ) ≠ 0 := by
      have h10 : 10 ≤ n := le_max_left _ _
      exact Nat.cast_ne_zero.mpr (by omega)
    rw [List.range_succ, List.map_append, List.map_singleton, List.getLast?_concat]
    have harg : a0 + (ccwEnd a0 a1 - a0) * ((n : ℝ) / (n : ℝ)) = ccwEnd a0 a1 := by
      rw [div_self hn0]
      ring
    rw [harg]
    unfold ccwEnd
    split_ifs with h
    · have hrw : a1 + 2 * Real.pi * ((⌊(a0 - a1) / (2 * Real.pi)⌋₊ + 1 : ℕ) : ℝ) =
          a1 + ((⌊(a0 - a1) / (2 * Real.pi)⌋₊ + 1 : ℕ) : ℝ) * (2 * Real.pi) := by
        ring
      rw [hrw, Real.cos_add_nat_mul_two_pi, Real.sin_add_nat_mul_two_pi]
    · rfl
  | false =>
    simp only [arcPoints, Bool.false_eq_true, if_false]
    set n := max 10 ⌈(a0 - cwEnd a0 a1) * r / jsMaxSegLen⌉₊ with hn
    have hn0 : (n : ℝ) ≠ 0 := by
      have h10 : 10 ≤ n := le_max_left _ _
      exact Nat.cast_ne_zero.mpr (by omega)
    rw [List.range_succ, List.map_append, List.map_singleton, List.getLast?_concat]
    have harg : a0 - (a0 - cwEnd a0 a1) * ((n : ℝ) / (n : ℝ)) = cwEnd a0 a1 := by
      rw [div_self hn0]
      ring
    rw [harg]
    unfold cwEnd
    split_ifs with h
    · have hrw : a1 - 2 * Real.pi * ((⌊(a1 - a0) / (2 * Real.pi)⌋₊ + 1 : ℕ) : ℝ) =
          a1 + ((-(⌊(a1 - a0) / (2 * Real.pi)⌋₊ + 1 : ℕ) : ℤ) : ℝ) * (2 * Real.pi) := by
        push_cast
        ring
      rw [hrw, Real.cos_add_int_mul_two_pi, Real.sin_add_int_mul_two_pi]
    · rfl

theorem arcPoints_length_ge (cx cy r a0 a1 : ℝ) (b : Bool) :
    11 ≤ (arcPoints cx cy r a0 a1 b).length := by
  cases b with
  | true =>
    simp only [arcPoints, if_true, List.length_map, List.length_range]
    have := le_max_left 10 ⌈(ccwEnd a0 a1 - a0) * r / jsMaxSegLen⌉₊
    omega
  | false =>
    simp only [arcPoints, Bool.false_eq_true, if_false, List.length_map, List.length_range]
    have := le_max_left 10 ⌈(a0 - cwEnd a0 a1) * r / jsMaxSegLen⌉₊
    omega

theorem chosenArc_cases (cx cy r : ℝ) (pS pE : ℝ × ℝ) (want : ℝ → ℝ → Prop) :
    chosenArc cx cy r pS pE want =
        arcPoints cx cy r (angleOf cx cy pS.1 pS.2) (angleOf cx cy pE.1 pE.2) true
      ∨ chosenArc cx cy r pS pE want =
        arcPoints cx cy r (angleOf cx cy pS.1 pS.2) (angleOf cx cy pE.1 pE.2) false := by
  simp only [chosenArc]
  split_ifs with h1 h2 h3
  · exact Or.inl rfl
  · exact Or.inr rfl
  · exact Or.inl rfl
  · exact Or.inr rfl

theorem angleOf_recon {cx cy px py r : ℝ} (hr : 0 < r)
    (h : (px - cx) ^ 2 + (py - cy) ^ 2 = r ^ 2) :
    (cx + r * Real.cos (angleOf cx cy px py), cy + r * Real.sin (angleOf cx cy px py)) =
      (px, py) := by
  have habs : Complex.abs ⟨px - cx, py - cy⟩ = r := by
    rw [Complex.abs_apply, Complex.normSq_mk,
      show (px - cx) * (px - cx) + (py - cy) * (py - cy) = r ^ 2 by rw [← h]; ring]
    exact Real.sqrt_sq hr.le
  have hz : (⟨px - cx, py - cy⟩ : ℂ) ≠ 0 := by
    intro h0
    rw [h0] at habs
    simp only [map_zero] at habs
    exact hr.ne' habs.symm
  unfold angleOf
  rw [Complex.cos_arg hz, Complex.sin_arg, habs]
  show (cx + r * ((px - cx) / r), cy + r * ((py - cy) / r)) = (px, py)
  rw [mul_comm r ((px - cx) / r), div_mul_cancel₀ _ hr.ne',
    mul_comm r ((py - cy) / r), div_mul_cancel₀ _ hr.ne']
  simp only [Prod.mk.injEq]
  constructor <;> ring

theorem chosenArc_getLast {cx cy r : ℝ} (pS pE : ℝ × ℝ) (want : ℝ → ℝ → Prop) (hr : 0 < r)
    (hE : (pE.1 - cx) ^ 2 + (pE.2 - cy) ^ 2 = r ^ 2) :
    (chosenArc cx cy r pS pE want).getLast? = some pE := by
  rcases chosenArc_cases cx cy r pS pE want with hc | hc <;>
    rw [hc, arcPoints_getLast, angleOf_recon hr hE, Prod.mk.eta]

theorem chosenArc_drop_ne_nil (cx cy r : ℝ) (pS pE : ℝ × ℝ) (want : ℝ → ℝ → Prop) :
    (chosenArc cx cy r pS pE want).drop 1 ≠ [] := by
  rcases chosenArc_cases cx cy r pS pE want with hc | hc <;> rw [hc]
  · apply List.ne_nil_of_length_pos
    rw [List.length_drop]
    have := arcPoints_length_ge cx cy r (angleOf cx cy pS.1 pS.2) (angleOf cx cy pE.1 pE.2) true
    omega
  · apply List.ne_nil_of_length_pos
    rw [List.length_drop]
    have := arcPoints_length_ge cx cy r (angleOf cx cy pS.1 pS.2) (angleOf cx cy pE.1 pE.2) false
    omega

end Jumper

namespace Jumper

theorem externalTangents_horizontal (c1x c2x r1 r2 D : ℝ) (hr1 : 0 ≤ r1)
    (hDval : c2x - c1x = D) (hD : 0 < D) (hk : |r1 - r2| < D) :
    externalTangents c1x 0 r1 c2x 0 r2 =
      some ⟨(c1x + r1 * Real.cos (Real.arccos ((r1 - r2) / D)),
             r1 * Real.sin (Real.arccos ((r1 - r2) / D))),
            (c2x + r2 * Real.cos (Real.arccos ((r1 - r2) / D)),
             r2 * Real.sin (Real.arccos ((r1 - r2) / D))),
            (c1x + r1 * Real.cos (Real.arccos ((r1 - r2) / D)),
             -(r1 * Real.sin (Real.arccos ((r1 - r2) / D)))),
            (c2x + r2 * Real.cos (Real.arccos ((r1 - r2) / D)),
             -(r2 * Real.sin (Real.arccos ((r1 - r2) / D))))⟩ := by
  have hsin : 0 ≤ Real.sin (Real.arccos ((r1 - r2) / D)) :=
    Real.sin_nonneg_of_nonneg_of_le_pi (Real.arccos_nonneg _) (Real.arccos_le_pi _)
  simp only [externalTangents, angleOf, hDval, sub_zero, sub_self]
  rw [show (0 : ℝ) ^ 2 = 0 by norm_num, add_zero, Real.sqrt_sq hD.le]
  rw [if_neg (not_not_intro hD)]
  rw [if_neg (by
    rw [gt_iff_lt, not_lt, abs_div, abs_of_pos hD]
    exact ((div_lt_one hD).mpr hk).le)]
  have hbase : Complex.arg ⟨D, 0⟩ = 0 := by
    rw [show (⟨D, 0⟩ : ℂ) = (D : ℂ) from rfl, Complex.arg_ofReal_of_nonneg hD.le]
  rw [hbase]
  simp only [zero_add, zero_sub, Real.cos_neg, Real.sin_neg, mul_neg]
  rw [if_pos (neg_le_self (mul_nonneg hr1 hsin))]

end Jumper

namespace CadGen

theorem append_right_ne_nil {α : Type _} (l₁ l₂ : List α) (h : l₂ ≠ []) : l₁ ++ l₂ ≠ [] := by
  simp [List.append_eq_nil, h]

theorem getLast_append_right {α : Type _} (l₁ l₂ : List α) (h : l₂ ≠ []) :
    (l₁ ++ l₂).getLast? = l₂.getLast? := by
  rw [List.getLast?_append]
  obtain ⟨v, hv⟩ := Option.isSome_iff_exists.mp (List.getLast?_isSome.mpr h)
  rw [hv]
  rfl

theorem getLast_drop_one {α : Type _} (l : List α) (h : 2 ≤ l.length) :
    (l.drop 1).getLast? = l.getLast? := by
  cases l with
  | nil => simp at h
  | cons x rest =>
    cases rest with
    | nil => simp at h
    | cons y t =>
      rw [List.getLast?_cons_cons]
      rfl

end CadGen

namespace Jumper

theorem chosenArc_drop_getLast {cx cy r : ℝ} (pS pE : ℝ × ℝ) (want : ℝ → ℝ → Prop)
    (hr : 0 < r) (hE : (pE.1 - cx) ^ 2 + (pE.2 - cy) ^ 2 = r ^ 2) :
    ((chosenArc cx cy r pS pE want).drop 1).getLast? = some pE := by
  rw [CadGen.getLast_drop_one]
  · exact chosenArc_getLast pS pE want hr hE
  · rcases chosenArc_cases cx cy r pS pE want with hc | hc <;> rw [hc]
    · have := arcPoints_length_ge cx cy r (angleOf cx cy pS.1 pS.2) (angleOf cx cy pE.1 pE.2) true
      omega
    · have := arcPoints_length_ge cx cy r (angleOf cx cy pS.1 pS.2) (angleOf cx cy pE.1 pE.2) false
      omega

theorem buildOD_pieces {cc Rb Ri : ℝ} {tLC tCR : ExtTan}
    (h1 : externalTangents (-cc / 2) 0 Rb 0 0 Ri = some tLC)
    (h2 : externalTangents 0 0 Ri (cc / 2) 0 Rb = some tCR) :
    buildOD cc Rb Ri = .ok (flattenPieces tLC.top1 (buildODPieces cc Rb Ri)) := by
  unfold buildOD buildODPieces
  rw [h1, h2]
  simp only [flattenPieces, pieceTail, List.flatMap_cons, List.flatMap_nil, List.append_nil,
    List.cons_append, List.nil_append, List.append_assoc]

end Jumper

namespace Jumper

theorem getLast_flatten (s : ℝ × ℝ) (ps : List ODPiece) (p : ODPiece)
    (hp : pieceTail p ≠ []) :
    (flattenPieces s (ps ++ [p])).getLast? = (pieceTail p).getLast? := by
  simp only [flattenPieces, List.flatMap_append, List.flatMap_cons, List.flatMap_nil,
    List.append_nil]
  rw [show s :: (ps.flatMap pieceTail ++ pieceTail p)
      = ([s] ++ ps.flatMap pieceTail) ++ pieceTail p from by simp]
  exact CadGen.getLast_append_right _ _ hp

theorem flatten8_getLast (s : ℝ × ℝ) (p1 p2 p3 p4 p5 p6 p7 p8 : ODPiece)
    (hp : pieceTail p8 ≠ []) :
    (flattenPieces s [p1, p2, p3, p4, p5, p6, p7, p8]).getLast? =
      (pieceTail p8).getLast? := by
  show (flattenPieces s ([p1, p2, p3, p4, p5, p6, p7] ++ [p8])).getLast? = _
  exact getLast_flatten s _ p8 hp

end Jumper

/-- C4 (amended): when `cc/2 ≤ |RboltOuter - RidOuter|` (the containment
condition) the jumper validation fails — before `buildOD` runs — with the
distinct "cannot form straight tangent lines" report; for `cc/2` strictly
above the threshold `buildOD` returns a closed outline assembled from exactly
4 straight tangent segments and 4 arcs drawn on the 3 pairwise-distinct
circles (left bolt-outer, center-outer twice, right bolt-outer), whose first
and last points coincide (the upper tangent point on the left circle). -/
theorem C4_jumper_tangent_precondition :
    (∀ idDia boltDia cc boltEdgeToOD idEdgeToOD : ℝ,
      0 < idDia → 0 < boltDia → 0 < cc → 0 ≤ boltEdgeToOD → 0 ≤ idEdgeToOD →
      boltDia < cc → boltDia / 2 + idDia / 2 < cc / 2 →
      cc / 2 ≤ |boltDia / 2 + boltEdgeToOD - (idDia / 2 + idEdgeToOD)| →
      Jumper.validateAndPreview idDia boltDia cc boltEdgeToOD idEdgeToOD =
        .error ["OD offsets create a contained-circle condition — cannot form straight tangent lines. Adjust OD offsets or spacing."])
    ∧ (∀ cc Rb Ri : ℝ, 0 < cc → 0 < Rb → 0 < Ri → |Rb - Ri| < cc / 2 →
        Jumper.buildOD cc Rb Ri =
            .ok (Jumper.flattenPieces (Jumper.LTopPoint cc Rb Ri)
              (Jumper.buildODPieces cc Rb Ri))
          ∧ Jumper.straightCount (Jumper.buildODPieces cc Rb Ri) = 4
          ∧ Jumper.arcCount (Jumper.buildODPieces cc Rb Ri) = 4
          ∧ Jumper.arcCircles (Jumper.buildODPieces cc Rb Ri) =
              [(0, 0, Ri), (cc / 2, 0, Rb), (0, 0, Ri), (-cc / 2, 0, Rb)]
          ∧ (-cc / 2 : ℝ) ≠ cc / 2 ∧ (-cc / 2 : ℝ) ≠ 0 ∧ (0 : ℝ) ≠ cc / 2
          ∧ (Jumper.flattenPieces (Jumper.LTopPoint cc Rb Ri)
              (Jumper.buildODPieces cc Rb Ri)).head? =
                some (Jumper.LTopPoint cc Rb Ri)
          ∧ (Jumper.flattenPieces (Jumper.LTopPoint cc Rb Ri)
              (Jumper.buildODPieces cc Rb Ri)).getLast? =
                some (Jumper.LTopPoint cc Rb Ri)) := by
  constructor
  · intro idDia boltDia cc bE iE h1 h2 h3 h4 h5 h6 h7 h8
    simp only [Jumper.validateAndPreview]
    rw [if_neg (not_le.mpr h1), if_neg (not_le.mpr h2), if_neg (not_le.mpr h3),
      if_neg (not_lt.mpr h4), if_neg (not_lt.mpr h5)]
    rw [if_neg (by simp : ¬ (([] : List String) ++ [] ++ [] ++ [] ++ [] ≠ []))]
    rw [if_neg (not_le.mpr h6), if_neg (not_le.mpr h7)]
    rw [if_neg (by simp : ¬ (([] : List String) ++ [] ≠ []))]
    rw [if_pos h8]
  · intro cc Rb Ri hcc hRb hRi hk
    have hD2 : (0 : ℝ) < cc / 2 := by linarith
    have e1 := Jumper.externalTangents_horizontal (-cc / 2) 0 Rb Ri (cc / 2)
      hRb.le (by ring) hD2 hk
    have e2 := Jumper.externalTangents_horizontal 0 (cc / 2) Ri Rb (cc / 2)
      hRi.le (by ring) hD2 (by rw [abs_sub_comm]; exact hk)
    refine ⟨Jumper.buildOD_pieces e1 e2, ?_, ?_, ?_, ?_, ?_, ?_, rfl, ?_⟩
    · unfold Jumper.buildODPieces
      rw [e1, e2]
      rfl
    · unfold Jumper.buildODPieces
      rw [e1, e2]
      rfl
    · unfold Jumper.buildODPieces
      rw [e1, e2]
      rfl
    · intro h
      have : cc = 0 := by linarith [h]
      exact hcc.ne' this
    · intro h
      have : cc = 0 := by linarith [h]
      exact hcc.ne' this
    · intro h
      have : cc = 0 := by linarith [h]
      exact hcc.ne' this
    · unfold Jumper.buildODPieces
      rw [e1, e2]
      rw [Jumper.flatten8_getLast]
      · show ((Jumper.chosenArc (-cc / 2) 0 Rb _ _ _).drop 1).getLast? = _
        apply Jumper.chosenArc_drop_getLast _ _ _ hRb
        show (-cc / 2 + Rb * Real.cos (Real.arccos ((Rb - Ri) / (cc / 2))) - (-cc / 2)) ^ 2
            + (Rb * Real.sin (Real.arccos ((Rb - Ri) / (cc / 2))) - 0) ^ 2 = Rb ^ 2
        have hsc := Real.sin_sq_add_cos_sq (Real.arccos ((Rb - Ri) / (cc / 2)))
        linear_combination Rb ^ 2 * hsc
      · exact Jumper.chosenArc_drop_ne_nil _ _ _ _ _ _

theorem C4_jumper_tangent_precondition_witness :
    Jumper.validateAndPreview 1 1 4 0 2 =
        .error ["OD offsets create a contained-circle condition — cannot form straight tangent lines. Adjust OD offsets or spacing."]
      ∧ Jumper.straightCount (Jumper.buildODPieces 4 1 (3 / 2)) = 4 := by
  constructor
  · exact C4_jumper_tangent_precondition.1 1 1 4 0 2 (by norm_num) (by norm_num)
      (by norm_num) (by norm_num) (by norm_num) (by norm_num) (by norm_num)
      (by rw [show (1 : ℝ) / 2 + 0 - (1 / 2 + 2) = -2 by norm_num]
          rw [abs_of_nonpos (by norm_num)]
          norm_num)
  · exact (C4_jumper_tangent_precondition.2 4 1 (3 / 2) (by norm_num) (by norm_num)
      (by norm_num)
      (by rw [abs_lt]; constructor <;> norm_num)).2.1

/-- Refutes the original C4 counts: at the valid jumper configuration
`cc = 4`, `RboltOuter = 1`, `RidOuter = 3/2` the built outline contains
4 straight tangent segments (not 2) and 4 arcs (not 3). -/
theorem C4_jumper_counts_counterexample :
    Jumper.straightCount (Jumper.buildODPieces 4 1 (3 / 2)) = 4
    ∧ Jumper.arcCount (Jumper.buildODPieces 4 1 (3 / 2)) = 4
    ∧ (4 : ℕ) ≠ 2 ∧ (4 : ℕ) ≠ 3 := by
  have e1 := Jumper.externalTangents_horizontal (-4 / 2 : ℝ) 0 1 (3 / 2) 2
    (by norm_num) (by norm_num) (by norm_num)
    (by rw [abs_lt]; constructor <;> norm_num)
  have e2 := Jumper.externalTangents_horizontal (0 : ℝ) (4 / 2) (3 / 2) 1 2
    (by norm_num) (by norm_num) (by norm_num)
    (by rw [abs_lt]; constructor <;> norm_num)
  refine ⟨?_, ?_, by norm_num, by norm_num⟩
  · unfold Jumper.buildODPieces
    rw [e1, e2]
    rfl
  · unfold Jumper.buildODPieces
    rw [e1, e2]
    rfl
